import Mathlib

/-!
Shallow embedding of `ckanext/datavic_harvester/harvesters/_json.py`
(class `DataVicDCATJSONHarvester`).

Python dictionaries holding arbitrary JSON data are modelled by the
inductive `JValue` (objects as association lists, as produced by
`json.loads`).  Python exceptions are modelled by the `Except PyErr`
monad; a Python function that can raise becomes a Lean function into
`Except PyErr _`.  External collaborators of the module — `json.loads`,
`json.dumps`, `get_action('group_show')`, `HarvestSource.get`,
`BeautifulSoup`, `converters.dcat_to_ckan`, and the helper modules
`bs4_helpers` / `helpers` — are fields of a `Host` structure and stay
abstract: the theorems hold for every host behaviour, and witnesses
instantiate the host concretely.

Mutation of Python dictionaries is modelled by explicit state passing:
every helper returns (alongside its other effects) each mutable object
that was passed to it, so that read-only-ness becomes a provable
equation instead of a typing artefact.
-/

set_option autoImplicit false

namespace DataVic

/-- A JSON value, as produced by Python's `json.loads`. Objects are
association lists (first occurrence wins on lookup, as in a dict that
has unique keys). -/
inductive JValue where
  | null : JValue
  | bool : Bool → JValue
  | num : Int → JValue
  | str : String → JValue
  | arr : List JValue → JValue
  | obj : List (String × JValue) → JValue
  deriving Repr

namespace JValue

/-- Structural (Python `==`) equality on JSON values. -/
def beq : JValue → JValue → Bool
  | .null, .null => true
  | .bool a, .bool b => a == b
  | .num a, .num b => a == b
  | .str a, .str b => a == b
  | .arr [], .arr [] => true
  | .arr (x :: xs), .arr (y :: ys) => x.beq y && beq (.arr xs) (.arr ys)
  | .obj [], .obj [] => true
  | .obj ((k, v) :: xs), .obj ((k2, v2) :: ys) =>
      k == k2 && v.beq v2 && beq (.obj xs) (.obj ys)
  | _, _ => false
  termination_by a _ => sizeOf a
  decreasing_by all_goals (simp_wf; try omega)

instance : BEq JValue := ⟨beq⟩

/-- Python truthiness (`bool(x)`) of a JSON value. -/
def truthy : JValue → Bool
  | .null => false
  | .bool b => b
  | .num n => n != 0
  | .str s => s ≠ ""
  | .arr xs => !xs.isEmpty
  | .obj kvs => !kvs.isEmpty

/-- Is this value a JSON string (`isinstance(x, six.string_types)`)? -/
def isStr : JValue → Bool
  | .str _ => true
  | _ => false

end JValue

/-- Python exceptions that this module can raise. -/
inductive PyErr where
  | valueError : String → PyErr
  | typeError : String → PyErr
  | keyError : String → PyErr
  | attributeError : String → PyErr
  deriving Repr, DecidableEq

/-- Characters of a string, for character-level string reasoning. -/
def strChars (s : String) : List Char := s.data

/-- Does `sub` occur as a contiguous sublist of `l`? -/
def listInfixOf (sub : List Char) : List Char → Bool
  | [] => sub.isEmpty
  | c :: rest => sub.isPrefixOf (c :: rest) || listInfixOf sub rest

/-- Python `sub in s` for strings: substring containment. -/
def strContains (s sub : String) : Bool :=
  listInfixOf sub.data s.data

/-- Python `key in v` (membership test on a JSON value): key lookup on a
dict, element membership on a list, substring test on a string, and a
`TypeError` on the remaining types (as for `in None`, `in 3`, ...). -/
def pyContains (v : JValue) (key : String) : Except PyErr Bool :=
  match v with
  | .obj kvs => .ok ((kvs.lookup key).isSome)
  | .arr xs => .ok (xs.contains (.str key))
  | .str s => .ok (strContains s key)
  | _ => .error (.typeError "argument is not iterable")

/-- Python `v[key]` on a JSON value: dict lookup (raising `KeyError` when
absent), `TypeError` otherwise (string keys on lists/strings/None...). -/
def pyGetItem (v : JValue) (key : String) : Except PyErr JValue :=
  match v with
  | .obj kvs =>
      match kvs.lookup key with
      | some x => .ok x
      | none => .error (.keyError key)
  | _ => .error (.typeError "indices must be integers")

/-- Python `v.get(key, default)`: only dicts have `.get`; other values
raise `AttributeError`. -/
def pyGet (v : JValue) (key : String) (dflt : JValue) : Except PyErr JValue :=
  match v with
  | .obj kvs => .ok ((kvs.lookup key).getD dflt)
  | _ => .error (.attributeError "object has no attribute get")

/-- Python `v[key] = x` on a JSON value: dict update (replacing the first
binding of `key`, appending a fresh one otherwise); `TypeError` on
non-dicts. -/
def pySetItem (v : JValue) (key : String) (x : JValue) : Except PyErr JValue :=
  match v with
  | .obj kvs => .ok (.obj (setKey kvs))
  | _ => .error (.typeError "does not support item assignment")
where
  setKey : List (String × JValue) → List (String × JValue)
    | [] => [(key, x)]
    | (k, v') :: rest => if k = key then (k, x) :: rest else (k, v') :: setKey rest

/-- `key in cfg` when `cfg` may be Python `None` (the failed-config case of
`_get_package_dict`): `in None` raises `TypeError`. -/
def pyContainsOpt (cfg : Option JValue) (key : String) : Except PyErr Bool :=
  match cfg with
  | none => .error (.typeError "argument of type NoneType is not iterable")
  | some v => pyContains v key

/-- `cfg[key]` when `cfg` may be Python `None`. -/
def pyGetItemOpt (cfg : Option JValue) (key : String) : Except PyErr JValue :=
  match cfg with
  | none => .error (.typeError "NoneType object is not subscriptable")
  | some v => pyGetItem v key

/-- `cfg.get(key, dflt)` when `cfg` may be Python `None`. -/
def pyGetOpt (cfg : Option JValue) (key : String) (dflt : JValue) :
    Except PyErr JValue :=
  match cfg with
  | none => .error (.attributeError "NoneType object has no attribute get")
  | some v => pyGet v key dflt

/-- One entry of `package_dict['extras']` (only its `'key'` is ever read
by this module). -/
structure Extra where
  key : String
  value : String
  deriving Repr

/-- One entry of `package_dict['tags']`: a small string-valued dict that
may or may not carry a `'name'` key. -/
abbrev Tag := List (String × String)

/-- The result of `BeautifulSoup(...)`; `text` is what `get_text()`
returns. -/
structure Soup where
  text : String
  deriving Repr

/-- The CKAN package dict, as produced by `converters.dcat_to_ckan` and
then mutated in place by the harvester's helpers.  Keys that the module
may leave absent are `Option`-valued (`none` = key not in the dict). -/
structure PackageDict where
  notes : String
  extras : List Extra
  tags : List Tag
  extract : Option String := none
  groups : Option (List JValue) := none
  category : Option JValue := none
  update_frequency : Option JValue := none
  full_metadata_url : Option JValue := none
  personal_information : Option JValue := none
  access : Option JValue := none
  protective_marking : Option JValue := none
  organization_visibility : Option JValue := none
  workflow_status : Option JValue := none
  date_created_data_asset : Option JValue := none
  date_modified_data_asset : Option JValue := none
  license_id : Option JValue := none
  custom_licence_text : Option JValue := none
  tag_string : Option JValue := none
  deriving Repr

/-- The group dict returned by `get_action('group_show')` (only `'id'`
and `'name'` are read from it). -/
structure GroupShown where
  id : String
  name : String
  deriving Repr

/-- A harvest object handed to `_get_package_dict` by the host
harvesting subsystem. -/
structure HarvestObject where
  id : String
  guid : String
  content : String
  harvest_source_id : String
  deriving Repr

/-- The external collaborators of the module.  Each field models one
callback into the host application or an imported library/helper module;
all theorems are proved for an arbitrary host. -/
structure Host where
  /-- `json.loads`; `none` models the `ValueError` it raises. -/
  parseJson : String → Option JValue
  /-- `json.dumps(_, indent=1)`. -/
  dumpJson : JValue → String
  /-- `get_action('group_show')(context, {'id': g})`; `none` models
  `NotFound`. -/
  groupShow : JValue → Option GroupShown
  /-- `HarvestSource.get(id).config`; `none` models any exception on the
  lookup. -/
  getSource : String → Option String
  /-- `converters.dcat_to_ckan`. -/
  dcatToCkan : JValue → PackageDict
  /-- `BeautifulSoup(notes, 'html.parser')`. -/
  makeSoup : String → Soup
  /-- `bs4_helpers._remove_all_attrs_except_saving`. -/
  removeAttrs : Soup → Soup
  /-- `bs4_helpers._unwrap_all_except`. -/
  unwrapAllExcept : Soup → List String → String
  /-- `bs4_helpers._extract_metadata_url(soup, pattern)`; a falsy result
  models "not found". -/
  extractMetadataUrl : Soup → JValue → JValue
  /-- `bs4_helpers._fetch_update_frequency`. -/
  fetchUpdateFrequency : JValue → JValue
  /-- `helpers.convert_date_to_isoformat`. -/
  convertDateToIso : JValue → JValue

/-- The loop body of `validate_config`: look every entry of
`default_groups` up via `group_show`, collecting `{'id':…, 'name':…}`
dicts; a `NotFound` lookup raises `ValueError('Default group not
found')`. -/
def resolveDefaultGroups (host : Host) : List JValue → Except PyErr (List JValue)
  | [] => .ok []
  | g :: gs =>
      match host.groupShow g with
      | none => .error (.valueError "Default group not found")
      | some grp => do
          let rest ← resolveDefaultGroups host gs
          .ok (JValue.obj [("id", .str grp.id), ("name", .str grp.name)] :: rest)

/-- `DataVicDCATJSONHarvester.validate_config`. -/
def validate_config (host : Host) (config : String) : Except PyErr String :=
  if config = "" then .ok config
  else
    match host.parseJson config with
    | none => .error (.valueError "No JSON object could be decoded")
    | some config_obj => do
        let mem ← pyContains config_obj "default_groups"
        if mem then do
          let dg ← pyGetItem config_obj "default_groups"
          match dg with
          | .arr gs =>
              if (match gs with | [] => false | g0 :: _ => !g0.isStr) then
                .error (.valueError
                  "default_groups must be a list of group names/ids (i.e. strings)")
              else do
                let dicts ← resolveDefaultGroups host gs
                let config_obj2 ← pySetItem config_obj "default_group_dicts" (.arr dicts)
                .ok (host.dumpJson config_obj2)
          | _ => .error (.valueError "default_groups must be a *list* of group names/ids")
        else
          .ok config

/-- `'&'` replaced by `"and"` throughout (Python `s.replace('&', 'and')`). -/
def replaceAmpChars : List Char → List Char
  | [] => []
  | c :: cs =>
      if c = '&' then 'a' :: 'n' :: 'd' :: replaceAmpChars cs
      else c :: replaceAmpChars cs

/-- Python `s.replace('&', 'and')`. -/
def replaceAmp (s : String) : String := ⟨replaceAmpChars s.data⟩

/-- `tag['name'] = tag['name'].replace('&', 'and')`: update the first
`'name'` binding of the tag dict. -/
def setTagName : Tag → Tag
  | [] => []
  | (k, v) :: rest =>
      if k = "name" then (k, replaceAmp v) :: rest else (k, v) :: setTagName rest

/-- The per-tag body of `fix_erroneous_tags`: `if 'name' in tag and '&'
in tag['name']: tag['name'] = tag['name'].replace('&', 'and')`. -/
def fixTag (tag : Tag) : Tag :=
  match List.lookup "name" tag with
  | some v => if strContains v "&" then setTagName tag else tag
  | none => tag

/-- `DataVicDCATJSONHarvester.fix_erroneous_tags`. -/
def fix_erroneous_tags (package_dict : PackageDict) : PackageDict :=
  if !package_dict.tags.isEmpty then
    { package_dict with tags := package_dict.tags.map fixTag }
  else package_dict

/-- `notes[:notes.index('.') + 1]` when a `'.'` exists: the text up to
and including the first full stop. -/
def firstSentence : List Char → Option (List Char)
  | [] => none
  | c :: cs => if c = '.' then some [c] else (firstSentence cs).map (fun l => c :: l)

/-- `DataVicDCATJSONHarvester.generate_extract`.  `notes.index('.')`
raises `ValueError` when no `'.'` occurs; the `except` block logs it and
the full text is returned unsliced. -/
def generate_extract (soup : Soup) : String :=
  let notes := soup.text
  match firstSentence notes.data with
  | some pre => ⟨pre⟩
  | none => notes

/-- `DataVicDCATJSONHarvester.set_description_and_extract`. -/
def set_description_and_extract (host : Host) (package_dict : PackageDict)
    (soup : Soup) : PackageDict :=
  if strContains package_dict.notes "default.description" then
    { package_dict with
      notes := "No description has been entered for this dataset."
      extract := some "No abstract has been entered for this dataset." }
  else
    { package_dict with
      notes := host.unwrapAllExcept (host.removeAttrs soup) ["a", "br"]
      extract := some (generate_extract soup) }

/-- The extras entry, as the Python value the list comprehension
`[extra for extra in package_dict['extras'] if ...]` collects. -/
def extraToJ (e : Extra) : JValue :=
  .obj [("key", .str e.key), ("value", .str e.value)]

/-- `DataVicDCATJSONHarvester.set_full_metadata_url_and_update_frequency`.
The mutable `harvest_config` reference is threaded through and returned,
so that its preservation is a provable statement.  The local variable
`full_metadata_url` starts as the (possibly empty) list of matching
extras dicts and may be reassigned to a config value or an extracted
URL, exactly as in the source. -/
def set_full_metadata_url_and_update_frequency (host : Host)
    (harvest_config : Option JValue) (package_dict : PackageDict) (soup : Soup) :
    Except PyErr (PackageDict × Option JValue) := do
  let fmu0 : JValue :=
    .arr ((package_dict.extras.filter (fun e => e.key = "full_metadata_url")).map extraToJ)
  if !fmu0.truthy then do
    let memDflt ← pyContainsOpt harvest_config "default_full_metadata_url"
    let fmu1 ←
      if memDflt then pyGetItemOpt harvest_config "default_full_metadata_url"
      else pure fmu0
    let memPat ← pyContainsOpt harvest_config "full_metadata_url_pattern"
    if memPat then do
      let pat ← pyGetItemOpt harvest_config "full_metadata_url_pattern"
      let descUrl := host.extractMetadataUrl soup pat
      if descUrl.truthy then
        let pd := { package_dict with
          update_frequency := some (host.fetchUpdateFrequency descUrl) }
        .ok ({ pd with full_metadata_url := some descUrl }, harvest_config)
      else if fmu1.truthy then
        .ok ({ package_dict with full_metadata_url := some fmu1 }, harvest_config)
      else .ok (package_dict, harvest_config)
    else if fmu1.truthy then
      .ok ({ package_dict with full_metadata_url := some fmu1 }, harvest_config)
    else .ok (package_dict, harvest_config)
  else
    .ok ({ package_dict with full_metadata_url := some fmu0 }, harvest_config)

/-- The list comprehension `[g for g in default_group_dicts if g['id']
not in existing_group_ids]` (each `g['id']` can raise `KeyError`). -/
def filterNewGroups (existing : List JValue) :
    List JValue → Except PyErr (List JValue)
  | [] => .ok []
  | g :: gs => do
      let gid ← pyGetItem g "id"
      let rest ← filterNewGroups existing gs
      .ok (if existing.contains gid then rest else g :: rest)

/-- `[g['id'] for g in package_dict['groups']]`. -/
def existingGroupIds : List JValue → Except PyErr (List JValue)
  | [] => .ok []
  | g :: gs => do
      let gid ← pyGetItem g "id"
      let rest ← existingGroupIds gs
      .ok (gid :: rest)

/-- `DataVicDCATJSONHarvester.set_default_group`, with the mutable
`harvest_config` threaded through.  The guard is
`default_group_dicts and isinstance(default_group_dicts, list)`:
nothing happens unless `.get('default_group_dicts', [])` yields a
non-empty list. -/
def set_default_group (harvest_config : Option JValue)
    (package_dict : PackageDict) : Except PyErr (PackageDict × Option JValue) := do
  let dgd ← pyGetOpt harvest_config "default_group_dicts" (.arr [])
  match dgd with
  | .arr (g0 :: rest) => do
      let pd1 ←
        if g0.truthy then do
          let cid ← pyGet g0 "id" .null
          pure { package_dict with category := some cid }
        else pure package_dict
      let groups0 := pd1.groups.getD []
      let pd2 := { pd1 with groups := some groups0 }
      let existing ← existingGroupIds groups0
      let newGroups ← filterNewGroups existing (g0 :: rest)
      .ok ({ pd2 with groups := some (groups0 ++ newGroups) }, harvest_config)
  | _ => .ok (package_dict, harvest_config)

/-- `[extra for extra in package_dict['extras'] if extra['key'] == k]`
is non-empty. -/
def hasExtra (package_dict : PackageDict) (k : String) : Bool :=
  package_dict.extras.any (fun e => e.key = k)

/-- Lines 161–164: default `personal_information` to `'no'` when absent
from the extras. -/
def setPersonalInformation (package_dict : PackageDict) : PackageDict :=
  if hasExtra package_dict "personal_information" then package_dict
  else { package_dict with personal_information := some (.str "no") }

/-- Lines 166–169: default `access` to `'yes'` when absent from the
extras. -/
def setAccess (package_dict : PackageDict) : PackageDict :=
  if hasExtra package_dict "access" then package_dict
  else { package_dict with access := some (.str "yes") }

/-- Lines 171–174: default `protective_marking` to `'official'` when
absent from the extras. -/
def setProtectiveMarking (package_dict : PackageDict) : PackageDict :=
  if hasExtra package_dict "protective_marking" then package_dict
  else { package_dict with protective_marking := some (.str "official") }

/-- Lines 176–179: default `update_frequency` to `'unknown'` when absent
from the extras. -/
def setUpdateFrequency (package_dict : PackageDict) : PackageDict :=
  if hasExtra package_dict "update_frequency" then package_dict
  else { package_dict with update_frequency := some (.str "unknown") }

/-- Lines 181–184: default `organization_visibility` to `'current'` when
absent from the extras. -/
def setOrganizationVisibility (package_dict : PackageDict) : PackageDict :=
  if hasExtra package_dict "organization_visibility" then package_dict
  else { package_dict with organization_visibility := some (.str "current") }

/-- Lines 186–189: default `workflow_status` to `'draft'` when absent
from the extras. -/
def setWorkflowStatus (package_dict : PackageDict) : PackageDict :=
  if hasExtra package_dict "workflow_status" then package_dict
  else { package_dict with workflow_status := some (.str "draft") }

/-- The six unconditional default-filling statements of
`set_required_fields_defaults`, in source order. -/
def setRequiredSix (package_dict : PackageDict) : PackageDict :=
  setWorkflowStatus (setOrganizationVisibility (setUpdateFrequency
    (setProtectiveMarking (setAccess (setPersonalInformation package_dict)))))

/-- Lines 191–195: `issued = dcat_dict.get('issued')` and the
`date_created_data_asset` default. -/
def setDateCreated (host : Host) (dcat_dict : JValue)
    (package_dict : PackageDict) : Except PyErr PackageDict := do
  let issued ← pyGet dcat_dict "issued" .null
  .ok <|
    if issued.truthy && !hasExtra package_dict "date_created_data_asset" then
      { package_dict with
        date_created_data_asset := some (host.convertDateToIso issued) }
    else package_dict

/-- Lines 197–202: `modified = dcat_dict.get('modified')` and the
`date_modified_data_asset` default. -/
def setDateModified (host : Host) (dcat_dict : JValue)
    (package_dict : PackageDict) : Except PyErr PackageDict := do
  let modified ← pyGet dcat_dict "modified" .null
  .ok <|
    if modified.truthy && !hasExtra package_dict "date_modified_data_asset" then
      { package_dict with
        date_modified_data_asset := some (host.convertDateToIso modified) }
    else package_dict

/-- Lines 204–208: `landing_page = dcat_dict.get('landingPage')` as the
`full_metadata_url` fallback. -/
def setLandingUrl (dcat_dict : JValue) (package_dict : PackageDict) :
    Except PyErr PackageDict := do
  let landingPage ← pyGet dcat_dict "landingPage" .null
  .ok <|
    if landingPage.truthy && !hasExtra package_dict "full_metadata_url" then
      { package_dict with full_metadata_url := some landingPage }
    else package_dict

/-- Lines 210–219: the default license from the harvest source config
(`license_id` and `custom_licence_text`). -/
def setDefaultLicense (harvest_config : Option JValue)
    (package_dict : PackageDict) : Except PyErr PackageDict := do
  let licenseId := package_dict.license_id.getD .null
  let licCond ←
    if !licenseId.truthy then pyContainsOpt harvest_config "default_license"
    else pure false
  if licCond then do
    let defaultLicense ← pyGetOpt harvest_config "default_license" .null
    if defaultLicense.truthy then do
      let dlId ← pyGet defaultLicense "id" .null
      let dlTitle ← pyGet defaultLicense "title" .null
      let pdA :=
        if dlId.truthy then { package_dict with license_id := some dlId }
        else package_dict
      .ok <|
        if dlTitle.truthy then { pdA with custom_licence_text := some dlTitle }
        else pdA
    else .ok package_dict
  else .ok package_dict

/-- Lines 221–222: `package_dict['tag_string'] = keywords if keywords
else []`. -/
def setTagString (dcat_dict : JValue) (package_dict : PackageDict) :
    Except PyErr PackageDict := do
  let keywords ← pyGet dcat_dict "keyword" .null
  .ok { package_dict with
        tag_string := some (if keywords.truthy then keywords else .arr []) }

/-- Lines 191–222 of `set_required_fields_defaults`: the `issued` /
`modified` / `landingPage` date and URL defaults, the default license,
and the `tag_string` assignment, in source order. -/
def setDatesUrlLicenseTags (host : Host) (harvest_config : Option JValue)
    (dcat_dict : JValue) (package_dict : PackageDict) :
    Except PyErr PackageDict := do
  let pd7 ← setDateCreated host dcat_dict package_dict
  let pd8 ← setDateModified host dcat_dict pd7
  let pd9 ← setLandingUrl dcat_dict pd8
  let pd10 ← setDefaultLicense harvest_config pd9
  setTagString dcat_dict pd10

/-- `DataVicDCATJSONHarvester.set_required_fields_defaults`, with the
mutable `harvest_config` and `dcat_dict` references threaded through and
returned. -/
def set_required_fields_defaults (host : Host) (harvest_config : Option JValue)
    (dcat_dict : JValue) (package_dict : PackageDict) :
    Except PyErr (PackageDict × Option JValue × JValue) := do
  let pd6 := setRequiredSix package_dict
  let pdF ← setDatesUrlLicenseTags host harvest_config dcat_dict pd6
  .ok (pdF, harvest_config, dcat_dict)

/-- `json.loads(content)` in `_get_package_dict`: the `ValueError` it
raises on invalid JSON is NOT caught there. -/
def loadsJson (host : Host) (s : String) : Except PyErr JValue :=
  match host.parseJson s with
  | some v => .ok v
  | none => .error (.valueError "No JSON object could be decoded")

/-- Lines 245–259 of `_get_package_dict`: the helper steps applied to
the converted package dict, in source order. -/
def convertSteps (host : Host) (harvest_config : Option JValue)
    (dcat_dict : JValue) (package_dict : PackageDict) :
    Except PyErr (PackageDict × JValue) := do
  let soup := host.makeSoup package_dict.notes
  let package_dict := set_description_and_extract host package_dict soup
  let (package_dict, harvest_config) ←
    set_full_metadata_url_and_update_frequency host harvest_config package_dict soup
  let package_dict := fix_erroneous_tags package_dict
  let (package_dict, harvest_config) ← set_default_group harvest_config package_dict
  let (package_dict, _harvest_config, dcat_dict) ←
    set_required_fields_defaults host harvest_config dcat_dict package_dict
  .ok (package_dict, dcat_dict)

/-- `DataVicDCATJSONHarvester._get_package_dict`: the conversion entry
point.  Parses the harvest object's content, converts it via
`dcat_to_ckan`, loads the harvest source configuration (`None` on any
failure), and applies the helper steps in source order. -/
def get_package_dict (host : Host) (harvest_object : HarvestObject) :
    Except PyErr (PackageDict × JValue) := do
  let content := harvest_object.content
  let dcat_dict ← loadsJson host content
  let package_dict := host.dcatToCkan dcat_dict
  let harvest_config : Option JValue :=
    match host.getSource harvest_object.harvest_source_id with
    | some cfgStr => host.parseJson cfgStr
    | none => none
  convertSteps host harvest_config dcat_dict package_dict

/-!  Concrete hosts used by the witness theorems. -/

/-- A host all of whose callbacks are trivial: JSON never parses, every
group lookup is `NotFound`, the DCAT converter returns a fixed empty
package dict. -/
def nullHost : Host where
  parseJson _ := none
  dumpJson _ := ""
  groupShow _ := none
  getSource _ := none
  dcatToCkan _ := { notes := "", extras := [], tags := [] }
  makeSoup s := ⟨s⟩
  removeAttrs s := s
  unwrapAllExcept s _ := s.text
  extractMetadataUrl _ _ := .null
  fetchUpdateFrequency _ := .str "unknown"
  convertDateToIso v := v

/-!  ### C3 / C4 / C10: `validate_config` -/

/-- If some entry of `default_groups` is `NotFound`, the lookup loop
raises `ValueError('Default group not found')`. -/
theorem resolveDefaultGroups_notFound (host : Host) (gs : List JValue)
    (h : ∃ g ∈ gs, host.groupShow g = none) :
    resolveDefaultGroups host gs = .error (.valueError "Default group not found") := by
  induction gs with
  | nil => simp at h
  | cons g gs ih =>
      rcases h with ⟨g', hg', hnone⟩
      rcases List.mem_cons.mp hg' with rfl | hmem
      · simp [resolveDefaultGroups, hnone]
      · cases hshow : host.groupShow g with
        | none => simp [resolveDefaultGroups, hshow]
        | some grp =>
            simp [resolveDefaultGroups, hshow, ih ⟨g', hmem, hnone⟩]
            rfl

/-- C3: a non-empty configuration string that is not valid JSON makes
`validate_config` raise (the `ValueError` from `json.loads` is re-raised
by the `except ValueError` block and surfaces in the form UI); valid
configurations return a string by the function's type. -/
theorem validate_config_error_on_invalid_json (host : Host) (config : String)
    (hne : config ≠ "") (hbad : host.parseJson config = none) :
    ∃ msg, validate_config host config = .error (.valueError msg) := by
  unfold validate_config
  rw [if_neg hne, hbad]
  exact ⟨_, rfl⟩

/-- Witness for C3 at a concrete non-empty config string that the
host's JSON parser rejects. -/
theorem validate_config_error_on_invalid_json_witness :
    ∃ msg, validate_config nullHost "\x7bnot json" = .error (.valueError msg) :=
  validate_config_error_on_invalid_json nullHost "\x7bnot json" (by decide) rfl

/-- C4: when `default_groups` is a list of strings and the host's
`group_show` reports `NotFound` for one of them, `validate_config`
raises exactly `ValueError('Default group not found')`. -/
theorem validate_config_group_not_found (host : Host) (config : String)
    (kvs : List (String × JValue)) (gs : List JValue)
    (hne : config ≠ "")
    (hparse : host.parseJson config = some (.obj kvs))
    (hdg : kvs.lookup "default_groups" = some (.arr gs))
    (hstr : ∀ g ∈ gs, g.isStr = true)
    (hmiss : ∃ g ∈ gs, host.groupShow g = none) :
    validate_config host config = .error (.valueError "Default group not found") := by
  cases gs with
  | nil => simp at hmiss
  | cons g0 rest =>
      have hg0 : g0.isStr = true := hstr g0 (List.mem_cons_self g0 rest)
      unfold validate_config
      rw [if_neg hne, hparse]
      simp [Bind.bind, Except.bind, pyContains, pyGetItem, hdg, hg0,
        resolveDefaultGroups_notFound host (g0 :: rest) hmiss]

/-- A host for the C4 witness: the config string parses to
`{"default_groups": ["g1"]}` and every group lookup is `NotFound`. -/
def hostC4 : Host :=
  { nullHost with
    parseJson := fun s =>
      if s = "CFG" then some (.obj [("default_groups", .arr [.str "g1"])]) else none }

/-- Witness for C4 at the concrete config `"CFG"`. -/
theorem validate_config_group_not_found_witness :
    validate_config hostC4 "CFG" = .error (.valueError "Default group not found") :=
  validate_config_group_not_found hostC4 "CFG"
    [("default_groups", .arr [.str "g1"])] [.str "g1"]
    (by decide) rfl rfl
    (by intro g hg; simp at hg; subst hg; rfl)
    ⟨.str "g1", by simp, rfl⟩

/-- C10: `validate_config` is the identity on configs that need no group
resolution: the empty config is returned unchanged, and so is any config
that parses to a JSON object without a `default_groups` key. -/
theorem validate_config_identity (host : Host) (config : String)
    (kvs : List (String × JValue))
    (h : config = "" ∨
      (host.parseJson config = some (.obj kvs) ∧ kvs.lookup "default_groups" = none)) :
    validate_config host config = .ok config := by
  by_cases hne : config = ""
  · simp [validate_config, hne]
  · rcases h with rfl | ⟨hparse, hnokey⟩
    · exact absurd rfl hne
    · unfold validate_config
      rw [if_neg hne, hparse]
      have hcont : pyContains (.obj kvs) "default_groups" = .ok false := by
        simp [pyContains, hnokey]
      simp [hcont]
      rfl

/-- A host for the C10 witness: every string parses to `{"x": null}`. -/
def hostC10 : Host :=
  { nullHost with parseJson := fun _ => some (.obj [("x", .null)]) }

/-- Witness for C10 at the concrete valid config without
`default_groups`. -/
theorem validate_config_identity_witness :
    validate_config hostC10 "\x7b\"x\": null\x7d" = .ok "\x7b\"x\": null\x7d" :=
  validate_config_identity hostC10 "\x7b\"x\": null\x7d" [("x", .null)]
    (Or.inr ⟨rfl, rfl⟩)

/-!  ### C8: `fix_erroneous_tags` -/

/-- The replacement string `"and"` introduces no `'&'`. -/
theorem replaceAmpChars_no_amp (l : List Char) : '&' ∉ replaceAmpChars l := by
  induction l with
  | nil => simp [replaceAmpChars]
  | cons c cs ih =>
      intro hmem
      unfold replaceAmpChars at hmem
      by_cases hc : c = '&'
      · rw [if_pos hc] at hmem
        simp only [List.mem_cons] at hmem
        rcases hmem with h | h | h | h
        · exact absurd h (by decide)
        · exact absurd h (by decide)
        · exact absurd h (by decide)
        · exact ih h
      · rw [if_neg hc] at hmem
        simp only [List.mem_cons] at hmem
        rcases hmem with h | h
        · exact hc h.symm
        · exact ih h

/-- `replace('&', 'and')` leaves an ampersand-free string unchanged. -/
theorem replaceAmpChars_of_no_amp (l : List Char) (h : '&' ∉ l) :
    replaceAmpChars l = l := by
  induction l with
  | nil => rfl
  | cons c cs ih =>
      simp only [List.mem_cons, not_or] at h
      have hc : ¬c = '&' := fun hh => h.1 hh.symm
      unfold replaceAmpChars
      rw [if_neg hc, ih h.2]

/-- A single-character substring test is just membership. -/
theorem listInfixOf_single_of_mem (c : Char) (l : List Char) (h : c ∈ l) :
    listInfixOf [c] l = true := by
  induction l with
  | nil => cases h
  | cons a as ih =>
      rcases List.mem_cons.mp h with rfl | hmem
      · simp [listInfixOf, List.isPrefixOf]
      · simp [listInfixOf, ih hmem]

/-- Updating the `'name'` binding commutes with `lookup 'name'`. -/
theorem lookup_setTagName (t : Tag) :
    List.lookup "name" (setTagName t) = (List.lookup "name" t).map replaceAmp := by
  induction t with
  | nil => rfl
  | cons kv rest ih =>
      obtain ⟨k, v⟩ := kv
      by_cases hk : k = "name"
      · simp [setTagName, hk, List.lookup]
      · have : ("name" == k) = false := by simp [hk]; exact fun h => hk h.symm
        simp [setTagName, hk, List.lookup, this, ih]

/-- Updating the `'name'` binding leaves all other bindings unchanged. -/
theorem filter_setTagName (t : Tag) :
    (setTagName t).filter (fun kv => kv.1 != "name") =
      t.filter (fun kv => kv.1 != "name") := by
  induction t with
  | nil => rfl
  | cons kv rest ih =>
      obtain ⟨k, v⟩ := kv
      by_cases hk : k = "name"
      · simp [setTagName, hk, List.filter]
      · have hkb : (k != "name") = true := by simp [hk]
        simp [setTagName, hk, List.filter_cons, hkb, ih]

/-- `fixTag` acts on each tag exactly as the loop body does: the
`'name'` value gets its ampersands replaced, everything else is
untouched, and a tag without a `'name'` key is returned as-is. -/
theorem fixTag_spec (t : Tag) :
    (List.lookup "name" (fixTag t) = (List.lookup "name" t).map replaceAmp) ∧
    ((fixTag t).filter (fun kv => kv.1 != "name") =
      t.filter (fun kv => kv.1 != "name")) ∧
    (List.lookup "name" t = none → fixTag t = t) := by
  cases hl : List.lookup "name" t with
  | none =>
      have hfix : fixTag t = t := by unfold fixTag; rw [hl]
      rw [hfix, hl]
      exact ⟨rfl, rfl, fun _ => rfl⟩
  | some v =>
      by_cases hamp : strContains v "&" = true
      · have hfix : fixTag t = setTagName t := by
          unfold fixTag; rw [hl]; simp [hamp]
        rw [hfix]
        refine ⟨?_, filter_setTagName t, ?_⟩
        · rw [lookup_setTagName, hl]
        · intro h; cases h
      · have hfix : fixTag t = t := by
          unfold fixTag; rw [hl]; simp [hamp]
        have hnoamp : '&' ∉ v.data := fun hmem =>
          hamp (listInfixOf_single_of_mem '&' v.data hmem)
        have hrep : replaceAmp v = v := by
          unfold replaceAmp
          rw [replaceAmpChars_of_no_amp v.data hnoamp]
        rw [hfix, hl]
        exact ⟨by simp [hrep], rfl, fun _ => rfl⟩

/-- Pointwise properties lift to `Forall₂` against a mapped list. -/
theorem forall₂_map_self {α : Type} (R : α → α → Prop) (f : α → α)
    (l : List α) (h : ∀ a ∈ l, R a (f a)) : List.Forall₂ R l (l.map f) := by
  induction l with
  | nil => simp
  | cons a as ih =>
      simp only [List.map_cons]
      exact List.Forall₂.cons (h a (List.mem_cons_self a as))
        (ih fun a ha => h a (List.mem_cons.mpr (Or.inr ha)))

/-- C8: after `fix_erroneous_tags` no tag's `'name'` value contains
`'&'` (each `'&'` became `"and"`), the number of tags is unchanged,
every binding other than `'name'` is unchanged, and tags without a
`'name'` key are untouched. -/
theorem fix_erroneous_tags_spec (pd : PackageDict) (hne : pd.tags ≠ []) :
    (fix_erroneous_tags pd).tags.length = pd.tags.length ∧
    (∀ t' ∈ (fix_erroneous_tags pd).tags, ∀ v,
      List.lookup "name" t' = some v → '&' ∉ v.data) ∧
    List.Forall₂
      (fun t t' =>
        (List.lookup "name" t' = (List.lookup "name" t).map replaceAmp) ∧
        (t'.filter (fun kv => kv.1 != "name") =
          t.filter (fun kv => kv.1 != "name")) ∧
        (List.lookup "name" t = none → t' = t))
      pd.tags (fix_erroneous_tags pd).tags := by
  have htags : (fix_erroneous_tags pd).tags = pd.tags.map fixTag := by
    unfold fix_erroneous_tags
    rw [if_pos]
    simp [hne]
  refine ⟨by simp [htags], ?_, ?_⟩
  · intro t' ht' v hv
    rw [htags] at ht'
    rcases List.mem_map.mp ht' with ⟨t, _, rfl⟩
    have hspec := (fixTag_spec t).1
    rw [hspec] at hv
    cases hl : List.lookup "name" t with
    | none => rw [hl] at hv; cases hv
    | some w =>
        rw [hl] at hv
        simp at hv
        subst hv
        exact replaceAmpChars_no_amp w.data
  · rw [htags]
    exact forall₂_map_self _ fixTag pd.tags fun t _ =>
      ⟨(fixTag_spec t).1, (fixTag_spec t).2.1, (fixTag_spec t).2.2⟩

/-- A concrete package dict with three tags: one with an ampersand, one
without, one lacking a `'name'` key. -/
def pdTags : PackageDict :=
  { notes := ""
    extras := []
    tags := [[("name", "research & statistics")],
             [("name", "transport"), ("vocabulary_id", "v1")],
             [("display_name", "untagged")]] }

/-- Witness for C8 at a concrete package dict with three tags: one with
an ampersand, one without, one lacking a `'name'` key. -/
theorem fix_erroneous_tags_spec_witness :
    (fix_erroneous_tags pdTags).tags.length = pdTags.tags.length ∧
    (∀ t' ∈ (fix_erroneous_tags pdTags).tags, ∀ v,
      List.lookup "name" t' = some v → '&' ∉ v.data) ∧
    List.Forall₂
      (fun t t' =>
        (List.lookup "name" t' = (List.lookup "name" t).map replaceAmp) ∧
        (t'.filter (fun kv => kv.1 != "name") =
          t.filter (fun kv => kv.1 != "name")) ∧
        (List.lookup "name" t = none → t' = t))
      pdTags.tags (fix_erroneous_tags pdTags).tags :=
  fix_erroneous_tags_spec pdTags (by decide)

/-!  ### C2: `generate_extract` / `set_description_and_extract` -/

/-- `notes.index('.')` raises `ValueError` exactly when the text has no
full stop. -/
theorem firstSentence_eq_none (l : List Char) (h : '.' ∉ l) :
    firstSentence l = none := by
  induction l with
  | nil => rfl
  | cons c cs ih =>
      simp only [List.mem_cons, not_or] at h
      have hc : ¬c = '.' := fun hh => h.1 hh.symm
      unfold firstSentence
      rw [if_neg hc, ih h.2]
      rfl

/-- C2 counterexample input: a description whose text contains no
sentence boundary, so `notes.index('.')` raises `ValueError`. -/
def soupNoDot : Soup := ⟨"no sentence boundary here"⟩

/-- The package dict whose notes carry the boundary-free description. -/
def pdNoDot : PackageDict :=
  { notes := "no sentence boundary here", extras := [], tags := [] }

/-- C2 counterexample: on a description in which no sentence boundary
can be found, `generate_extract`'s `except` block catches and logs the
`ValueError` and the conversion does not raise — but the notes/extract
fields are NOT the default placeholder texts: the extract falls back to
the full description text (the placeholders are used only when the
description contains `'default.description'`). -/
theorem set_description_and_extract_no_placeholder_on_failure :
    (set_description_and_extract nullHost pdNoDot soupNoDot).extract =
      some "no sentence boundary here" ∧
    (set_description_and_extract nullHost pdNoDot soupNoDot).extract ≠
      some "No abstract has been entered for this dataset." ∧
    (set_description_and_extract nullHost pdNoDot soupNoDot).notes ≠
      "No description has been entered for this dataset." := by
  refine ⟨?_, by decide, by decide⟩
  decide

/-- C2 as amended: an extraction failure (text with no sentence
boundary) is caught and logged and the conversion degrades gracefully
without raising — but the extract field degrades to the full text of the
description, not to placeholder text; the notes field is the cleaned-up
description as usual. -/
theorem set_description_and_extract_degrades_to_full_text (host : Host)
    (pd : PackageDict) (soup : Soup)
    (hnd : strContains pd.notes "default.description" = false)
    (hdot : '.' ∉ soup.text.data) :
    (set_description_and_extract host pd soup).extract = some soup.text ∧
    (set_description_and_extract host pd soup).notes =
      host.unwrapAllExcept (host.removeAttrs soup) ["a", "br"] := by
  unfold set_description_and_extract
  rw [hnd]
  simp [generate_extract, firstSentence_eq_none soup.text.data hdot]

/-- Witness for the amended C2 at the concrete boundary-free input. -/
theorem set_description_and_extract_degrades_to_full_text_witness :
    (set_description_and_extract nullHost pdNoDot soupNoDot).extract =
      some soupNoDot.text ∧
    (set_description_and_extract nullHost pdNoDot soupNoDot).notes =
      nullHost.unwrapAllExcept (nullHost.removeAttrs soupNoDot) ["a", "br"] :=
  set_description_and_extract_degrades_to_full_text nullHost pdNoDot soupNoDot
    (by decide) (by decide)

/-!  ### C7: statelessness of the conversion -/

/-- C7: the conversion is a pure function of the harvest object's
content and of the harvest source configuration resolved for it — the
embedding of `_get_package_dict` has no harvester state at all, so two
invocations on harvest objects with equal content and equal resolved
source configuration (under the same host collaborators) produce equal
results, whatever their other fields (`id`, `guid`) are. -/
theorem get_package_dict_stateless (host : Host) (o1 o2 : HarvestObject)
    (hcontent : o1.content = o2.content)
    (hsource : host.getSource o1.harvest_source_id =
      host.getSource o2.harvest_source_id) :
    get_package_dict host o1 = get_package_dict host o2 := by
  unfold get_package_dict
  rw [hcontent, hsource]

/-- Two concrete harvest objects differing in `id` and `guid` but with
equal content and source id. -/
def harvestObjA : HarvestObject :=
  { id := "obj-1", guid := "guid-1", content := "{}", harvest_source_id := "src" }

/-- Same content and source as `harvestObjA`, different identity. -/
def harvestObjB : HarvestObject :=
  { id := "obj-2", guid := "guid-2", content := "{}", harvest_source_id := "src" }

/-- Witness for C7 at the two concrete harvest objects. -/
theorem get_package_dict_stateless_witness :
    get_package_dict nullHost harvestObjA = get_package_dict nullHost harvestObjB :=
  get_package_dict_stateless nullHost harvestObjA harvestObjB rfl rfl

/-!  ### Preservation lemmas for the helper steps -/

theorem hasExtra_congr (pd pd' : PackageDict) (k : String)
    (h : pd.extras = pd'.extras) : hasExtra pd k = hasExtra pd' k := by
  unfold hasExtra
  rw [h]

theorem exbind_ok {α β : Type} (a : α) (f : α → Except PyErr β) :
    Except.bind (Except.ok a) f = f a := rfl

theorem exbind_err {α β : Type} (e : PyErr) (f : α → Except PyErr β) :
    Except.bind (Except.error e) f = Except.error e := rfl

theorem exbind_pure {α β : Type} (a : α) (f : α → Except PyErr β) :
    Except.bind (Pure.pure a) f = f a := rfl

theorem set_description_and_extract_extras (host : Host) (pd : PackageDict)
    (soup : Soup) : (set_description_and_extract host pd soup).extras = pd.extras := by
  unfold set_description_and_extract
  split <;> rfl

theorem fix_erroneous_tags_extras (pd : PackageDict) :
    (fix_erroneous_tags pd).extras = pd.extras := by
  unfold fix_erroneous_tags
  split <;> rfl

theorem sfmu_preserves (host : Host) (cfg : Option JValue) (pd : PackageDict)
    (soup : Soup) (r : PackageDict × Option JValue)
    (h : set_full_metadata_url_and_update_frequency host cfg pd soup = .ok r) :
    r.2 = cfg ∧ r.1.extras = pd.extras := by
  unfold set_full_metadata_url_and_update_frequency at h
  simp only [Bind.bind, Except.bind, Pure.pure, Except.pure] at h
  repeat' split at h
  all_goals cases h <;> exact ⟨rfl, rfl⟩

theorem sdg_preserves (cfg : Option JValue) (pd : PackageDict)
    (r : PackageDict × Option JValue)
    (h : set_default_group cfg pd = .ok r) :
    r.2 = cfg ∧ r.1.extras = pd.extras := by
  unfold set_default_group at h
  simp only [Bind.bind, Except.bind, Pure.pure, Except.pure] at h
  repeat' split at h
  all_goals cases h <;> exact ⟨rfl, rfl⟩

theorem setPersonalInformation_extras (pd : PackageDict) :
    (setPersonalInformation pd).extras = pd.extras := by
  unfold setPersonalInformation; split <;> rfl

theorem setAccess_extras (pd : PackageDict) :
    (setAccess pd).extras = pd.extras := by
  unfold setAccess; split <;> rfl

theorem setProtectiveMarking_extras (pd : PackageDict) :
    (setProtectiveMarking pd).extras = pd.extras := by
  unfold setProtectiveMarking; split <;> rfl

theorem setUpdateFrequency_extras (pd : PackageDict) :
    (setUpdateFrequency pd).extras = pd.extras := by
  unfold setUpdateFrequency; split <;> rfl

theorem setOrganizationVisibility_extras (pd : PackageDict) :
    (setOrganizationVisibility pd).extras = pd.extras := by
  unfold setOrganizationVisibility; split <;> rfl

theorem setWorkflowStatus_extras (pd : PackageDict) :
    (setWorkflowStatus pd).extras = pd.extras := by
  unfold setWorkflowStatus; split <;> rfl

theorem setAccess_pres (pd : PackageDict) :
    (setAccess pd).personal_information = pd.personal_information := by
  unfold setAccess; split <;> rfl

theorem setProtectiveMarking_pres (pd : PackageDict) :
    (setProtectiveMarking pd).personal_information = pd.personal_information ∧
    (setProtectiveMarking pd).access = pd.access := by
  unfold setProtectiveMarking; split <;> exact ⟨rfl, rfl⟩

theorem setUpdateFrequency_pres (pd : PackageDict) :
    (setUpdateFrequency pd).personal_information = pd.personal_information ∧
    (setUpdateFrequency pd).access = pd.access ∧
    (setUpdateFrequency pd).protective_marking = pd.protective_marking := by
  unfold setUpdateFrequency; split <;> exact ⟨rfl, rfl, rfl⟩

theorem setOrganizationVisibility_pres (pd : PackageDict) :
    (setOrganizationVisibility pd).personal_information = pd.personal_information ∧
    (setOrganizationVisibility pd).access = pd.access ∧
    (setOrganizationVisibility pd).protective_marking = pd.protective_marking ∧
    (setOrganizationVisibility pd).update_frequency = pd.update_frequency := by
  unfold setOrganizationVisibility; split <;> exact ⟨rfl, rfl, rfl, rfl⟩

theorem setWorkflowStatus_pres (pd : PackageDict) :
    (setWorkflowStatus pd).personal_information = pd.personal_information ∧
    (setWorkflowStatus pd).access = pd.access ∧
    (setWorkflowStatus pd).protective_marking = pd.protective_marking ∧
    (setWorkflowStatus pd).update_frequency = pd.update_frequency ∧
    (setWorkflowStatus pd).organization_visibility = pd.organization_visibility := by
  unfold setWorkflowStatus; split <;> exact ⟨rfl, rfl, rfl, rfl, rfl⟩

/-- The six default-filling statements: extras are untouched, and each
required field ends up with its documented default whenever the
corresponding key is absent from the extras. -/
theorem setRequiredSix_spec (pd : PackageDict) :
    (setRequiredSix pd).extras = pd.extras ∧
    (hasExtra pd "personal_information" = false →
      (setRequiredSix pd).personal_information = some (.str "no")) ∧
    (hasExtra pd "access" = false →
      (setRequiredSix pd).access = some (.str "yes")) ∧
    (hasExtra pd "protective_marking" = false →
      (setRequiredSix pd).protective_marking = some (.str "official")) ∧
    (hasExtra pd "update_frequency" = false →
      (setRequiredSix pd).update_frequency = some (.str "unknown")) ∧
    (hasExtra pd "organization_visibility" = false →
      (setRequiredSix pd).organization_visibility = some (.str "current")) ∧
    (hasExtra pd "workflow_status" = false →
      (setRequiredSix pd).workflow_status = some (.str "draft")) := by
  set p1 := setPersonalInformation pd with hp1
  set p2 := setAccess p1 with hp2
  set p3 := setProtectiveMarking p2 with hp3
  set p4 := setUpdateFrequency p3 with hp4
  set p5 := setOrganizationVisibility p4 with hp5
  have hsix : setRequiredSix pd = setWorkflowStatus p5 := rfl
  have he1 : p1.extras = pd.extras := setPersonalInformation_extras pd
  have he2 : p2.extras = pd.extras := (setAccess_extras p1).trans he1
  have he3 : p3.extras = pd.extras := (setProtectiveMarking_extras p2).trans he2
  have he4 : p4.extras = pd.extras := (setUpdateFrequency_extras p3).trans he3
  have he5 : p5.extras = pd.extras := (setOrganizationVisibility_extras p4).trans he4
  refine ⟨(setWorkflowStatus_extras p5).trans he5, ?_, ?_, ?_, ?_, ?_, ?_⟩
  · intro hk
    have h1 : p1.personal_information = some (.str "no") := by
      rw [hp1]; unfold setPersonalInformation; rw [hk]; rfl
    rw [hsix, (setWorkflowStatus_pres p5).1, (setOrganizationVisibility_pres p4).1,
      (setUpdateFrequency_pres p3).1, (setProtectiveMarking_pres p2).1,
      setAccess_pres p1, h1]
  · intro hk
    have hk1 : hasExtra p1 "access" = false := (hasExtra_congr p1 pd _ he1).trans hk
    have h2 : p2.access = some (.str "yes") := by
      rw [hp2]; unfold setAccess; rw [hk1]; rfl
    rw [hsix, (setWorkflowStatus_pres p5).2.1, (setOrganizationVisibility_pres p4).2.1,
      (setUpdateFrequency_pres p3).2.1, (setProtectiveMarking_pres p2).2, h2]
  · intro hk
    have hk2 : hasExtra p2 "protective_marking" = false :=
      (hasExtra_congr p2 pd _ he2).trans hk
    have h3 : p3.protective_marking = some (.str "official") := by
      rw [hp3]; unfold setProtectiveMarking; rw [hk2]; rfl
    rw [hsix, (setWorkflowStatus_pres p5).2.2.1,
      (setOrganizationVisibility_pres p4).2.2.1,
      (setUpdateFrequency_pres p3).2.2, h3]
  · intro hk
    have hk3 : hasExtra p3 "update_frequency" = false :=
      (hasExtra_congr p3 pd _ he3).trans hk
    have h4 : p4.update_frequency = some (.str "unknown") := by
      rw [hp4]; unfold setUpdateFrequency; rw [hk3]; rfl
    rw [hsix, (setWorkflowStatus_pres p5).2.2.2.1,
      (setOrganizationVisibility_pres p4).2.2.2, h4]
  · intro hk
    have hk4 : hasExtra p4 "organization_visibility" = false :=
      (hasExtra_congr p4 pd _ he4).trans hk
    have h5 : p5.organization_visibility = some (.str "current") := by
      rw [hp5]; unfold setOrganizationVisibility; rw [hk4]; rfl
    rw [hsix, (setWorkflowStatus_pres p5).2.2.2.2, h5]
  · intro hk
    have hk5 : hasExtra p5 "workflow_status" = false :=
      (hasExtra_congr p5 pd _ he5).trans hk
    rw [hsix]
    unfold setWorkflowStatus
    rw [hk5]
    rfl

/-- The fields a step of lines 191–222 must leave alone. -/
def UntouchedBySDLT (pd pd' : PackageDict) : Prop :=
  pd'.extras = pd.extras ∧
  pd'.personal_information = pd.personal_information ∧
  pd'.access = pd.access ∧
  pd'.protective_marking = pd.protective_marking ∧
  pd'.update_frequency = pd.update_frequency ∧
  pd'.organization_visibility = pd.organization_visibility ∧
  pd'.workflow_status = pd.workflow_status

theorem untouchedBySDLT_trans (pd1 pd2 pd3 : PackageDict)
    (h12 : UntouchedBySDLT pd1 pd2) (h23 : UntouchedBySDLT pd2 pd3) :
    UntouchedBySDLT pd1 pd3 := by
  obtain ⟨a1, a2, a3, a4, a5, a6, a7⟩ := h12
  obtain ⟨b1, b2, b3, b4, b5, b6, b7⟩ := h23
  exact ⟨b1.trans a1, b2.trans a2, b3.trans a3, b4.trans a4, b5.trans a5,
    b6.trans a6, b7.trans a7⟩

theorem setDateCreated_pres (host : Host) (dcat : JValue) (pd pd' : PackageDict)
    (h : setDateCreated host dcat pd = .ok pd') : UntouchedBySDLT pd pd' := by
  unfold setDateCreated at h
  simp only [Bind.bind, Except.bind] at h
  repeat' split at h
  all_goals cases h <;> exact ⟨rfl, rfl, rfl, rfl, rfl, rfl, rfl⟩

theorem setDateModified_pres (host : Host) (dcat : JValue) (pd pd' : PackageDict)
    (h : setDateModified host dcat pd = .ok pd') : UntouchedBySDLT pd pd' := by
  unfold setDateModified at h
  simp only [Bind.bind, Except.bind] at h
  repeat' split at h
  all_goals cases h <;> exact ⟨rfl, rfl, rfl, rfl, rfl, rfl, rfl⟩

theorem setLandingUrl_pres (dcat : JValue) (pd pd' : PackageDict)
    (h : setLandingUrl dcat pd = .ok pd') : UntouchedBySDLT pd pd' := by
  unfold setLandingUrl at h
  simp only [Bind.bind, Except.bind] at h
  repeat' split at h
  all_goals cases h <;> exact ⟨rfl, rfl, rfl, rfl, rfl, rfl, rfl⟩

theorem setDefaultLicense_pres (cfg : Option JValue) (pd pd' : PackageDict)
    (h : setDefaultLicense cfg pd = .ok pd') : UntouchedBySDLT pd pd' := by
  unfold setDefaultLicense at h
  simp only [Bind.bind, Except.bind, Pure.pure, Except.pure] at h
  repeat' split at h
  all_goals cases h <;> exact ⟨rfl, rfl, rfl, rfl, rfl, rfl, rfl⟩

theorem setTagString_pres (dcat : JValue) (pd pd' : PackageDict)
    (h : setTagString dcat pd = .ok pd') : UntouchedBySDLT pd pd' := by
  unfold setTagString at h
  simp only [Bind.bind, Except.bind] at h
  repeat' split at h
  all_goals cases h <;> exact ⟨rfl, rfl, rfl, rfl, rfl, rfl, rfl⟩

theorem sdlt_preserves (host : Host) (cfg : Option JValue) (dcat : JValue)
    (pd pd' : PackageDict)
    (h : setDatesUrlLicenseTags host cfg dcat pd = .ok pd') :
    UntouchedBySDLT pd pd' := by
  unfold setDatesUrlLicenseTags at h
  simp only [Bind.bind] at h
  cases h7 : setDateCreated host dcat pd with
  | error e => rw [h7, exbind_err] at h; cases h
  | ok pd7 =>
      rw [h7, exbind_ok] at h
      cases h8 : setDateModified host dcat pd7 with
      | error e => rw [h8, exbind_err] at h; cases h
      | ok pd8 =>
          rw [h8, exbind_ok] at h
          cases h9 : setLandingUrl dcat pd8 with
          | error e => rw [h9, exbind_err] at h; cases h
          | ok pd9 =>
              rw [h9, exbind_ok] at h
              cases h10 : setDefaultLicense cfg pd9 with
              | error e => rw [h10, exbind_err] at h; cases h
              | ok pd10 =>
                  rw [h10, exbind_ok] at h
                  exact untouchedBySDLT_trans _ _ _
                    (untouchedBySDLT_trans _ _ _
                      (untouchedBySDLT_trans _ _ _
                        (untouchedBySDLT_trans _ _ _
                          (setDateCreated_pres host dcat pd pd7 h7)
                          (setDateModified_pres host dcat pd7 pd8 h8))
                        (setLandingUrl_pres dcat pd8 pd9 h9))
                      (setDefaultLicense_pres cfg pd9 pd10 h10))
                    (setTagString_pres dcat pd10 pd' h)

/-- `set_required_fields_defaults` leaves the config, the dcat dict and
the extras untouched, and fills each of the six required fields with its
default whenever the corresponding key is absent from the extras. -/
theorem srfd_spec (host : Host) (cfg : Option JValue) (dcat : JValue)
    (pd : PackageDict) (r : PackageDict × Option JValue × JValue)
    (h : set_required_fields_defaults host cfg dcat pd = .ok r) :
    r.2.1 = cfg ∧ r.2.2 = dcat ∧ r.1.extras = pd.extras ∧
    (hasExtra pd "personal_information" = false →
      r.1.personal_information = some (.str "no")) ∧
    (hasExtra pd "access" = false → r.1.access = some (.str "yes")) ∧
    (hasExtra pd "protective_marking" = false →
      r.1.protective_marking = some (.str "official")) ∧
    (hasExtra pd "update_frequency" = false →
      r.1.update_frequency = some (.str "unknown")) ∧
    (hasExtra pd "organization_visibility" = false →
      r.1.organization_visibility = some (.str "current")) ∧
    (hasExtra pd "workflow_status" = false →
      r.1.workflow_status = some (.str "draft")) := by
  unfold set_required_fields_defaults at h
  simp only [Bind.bind] at h
  cases hF : setDatesUrlLicenseTags host cfg dcat (setRequiredSix pd) with
  | error e => rw [hF, exbind_err] at h; cases h
  | ok pdF =>
      rw [hF, exbind_ok] at h
      cases h
      have hpres := sdlt_preserves host cfg dcat (setRequiredSix pd) pdF hF
      unfold UntouchedBySDLT at hpres
      obtain ⟨hex, hpi, hac, hpm, huf, hov, hws⟩ := hpres
      obtain ⟨sex, spi, sac, spm, suf, sov, sws⟩ := setRequiredSix_spec pd
      refine ⟨rfl, rfl, hex.trans sex, ?_, ?_, ?_, ?_, ?_, ?_⟩
      · intro hk; rw [hpi, spi hk]
      · intro hk; rw [hac, sac hk]
      · intro hk; rw [hpm, spm hk]
      · intro hk; rw [huf, suf hk]
      · intro hk; rw [hov, sov hk]
      · intro hk; rw [hws, sws hk]

/-- The helper pipeline of `_get_package_dict` keeps the dcat dict and
the extras intact and ends with the six required-field defaults. -/
theorem convertSteps_spec (host : Host) (cfg : Option JValue) (dcat : JValue)
    (pd0 pd : PackageDict) (dd : JValue)
    (h : convertSteps host cfg dcat pd0 = .ok (pd, dd)) :
    dd = dcat ∧ pd.extras = pd0.extras ∧
    (hasExtra pd "personal_information" = false →
      pd.personal_information = some (.str "no")) ∧
    (hasExtra pd "access" = false → pd.access = some (.str "yes")) ∧
    (hasExtra pd "protective_marking" = false →
      pd.protective_marking = some (.str "official")) ∧
    (hasExtra pd "update_frequency" = false →
      pd.update_frequency = some (.str "unknown")) ∧
    (hasExtra pd "organization_visibility" = false →
      pd.organization_visibility = some (.str "current")) ∧
    (hasExtra pd "workflow_status" = false →
      pd.workflow_status = some (.str "draft")) := by
  unfold convertSteps at h
  simp only [Bind.bind] at h
  cases h1 : set_full_metadata_url_and_update_frequency host cfg
      (set_description_and_extract host pd0 (host.makeSoup pd0.notes))
      (host.makeSoup pd0.notes) with
  | error e => rw [h1, exbind_err] at h; cases h
  | ok r1 =>
      obtain ⟨pdB, cfgB⟩ := r1
      rw [h1, exbind_ok] at h
      dsimp only at h
      cases h2 : set_default_group cfgB (fix_erroneous_tags pdB) with
      | error e => rw [h2, exbind_err] at h; cases h
      | ok r2 =>
          obtain ⟨pdC, cfgC⟩ := r2
          rw [h2, exbind_ok] at h
          dsimp only at h
          cases h3 : set_required_fields_defaults host cfgC dcat pdC with
          | error e => rw [h3, exbind_err] at h; cases h
          | ok r3 =>
              obtain ⟨pdF, cfgF, dcatF⟩ := r3
              rw [h3, exbind_ok] at h
              dsimp only at h
              simp only [Except.ok.injEq, Prod.mk.injEq] at h
              obtain ⟨rfl, rfl⟩ := h
              obtain ⟨-, hexB⟩ :=
                sfmu_preserves host cfg
                  (set_description_and_extract host pd0 (host.makeSoup pd0.notes))
                  (host.makeSoup pd0.notes) (pdB, cfgB) h1
              obtain ⟨-, hexC⟩ := sdg_preserves cfgB (fix_erroneous_tags pdB)
                (pdC, cfgC) h2
              obtain ⟨-, hdcat, hexF, hpi, hac, hpm, huf, hov, hws⟩ :=
                srfd_spec host cfgC dcat pdC (pdF, cfgF, dcatF) h3
              have hexC0 : pdC.extras = pd0.extras := by
                rw [hexC, fix_erroneous_tags_extras, hexB,
                  set_description_and_extract_extras]
              have hexF0 : pdF.extras = pd0.extras := hexF.trans hexC0
              have hcongr : ∀ k, hasExtra pdF k = hasExtra pdC k :=
                fun k => hasExtra_congr _ _ k hexF
              refine ⟨hdcat, hexF0, ?_, ?_, ?_, ?_, ?_, ?_⟩
              · intro hk; exact hpi ((hcongr _).symm.trans hk)
              · intro hk; exact hac ((hcongr _).symm.trans hk)
              · intro hk; exact hpm ((hcongr _).symm.trans hk)
              · intro hk; exact huf ((hcongr _).symm.trans hk)
              · intro hk; exact hov ((hcongr _).symm.trans hk)
              · intro hk; exact hws ((hcongr _).symm.trans hk)

/-- Master lemma for `_get_package_dict` on its success path: the
returned dcat dict is exactly the parsed content, the extras of the
result are those produced by `dcat_to_ckan`, and each required field got
its default whenever the corresponding key is absent from the extras. -/
theorem gpd_spec (host : Host) (o : HarvestObject) (pd : PackageDict)
    (dd : JValue) (hok : get_package_dict host o = .ok (pd, dd)) :
    host.parseJson o.content = some dd ∧
    pd.extras = (host.dcatToCkan dd).extras ∧
    (hasExtra pd "personal_information" = false →
      pd.personal_information = some (.str "no")) ∧
    (hasExtra pd "access" = false → pd.access = some (.str "yes")) ∧
    (hasExtra pd "protective_marking" = false →
      pd.protective_marking = some (.str "official")) ∧
    (hasExtra pd "update_frequency" = false →
      pd.update_frequency = some (.str "unknown")) ∧
    (hasExtra pd "organization_visibility" = false →
      pd.organization_visibility = some (.str "current")) ∧
    (hasExtra pd "workflow_status" = false →
      pd.workflow_status = some (.str "draft")) := by
  unfold get_package_dict at hok
  simp only [Bind.bind] at hok
  cases hp : host.parseJson o.content with
  | none =>
      have hl : loadsJson host o.content =
          .error (.valueError "No JSON object could be decoded") := by
        unfold loadsJson; rw [hp]
      rw [hl, exbind_err] at hok
      cases hok
  | some dcat =>
      have hl : loadsJson host o.content = .ok dcat := by
        unfold loadsJson; rw [hp]
      rw [hl, exbind_ok] at hok
      obtain ⟨hdd, hex, h6⟩ := convertSteps_spec host _ dcat _ pd dd hok
      subst hdd
      exact ⟨rfl, hex, h6⟩

/-!  ### C1, C5, C6: the conversion invariants -/

/-- C1: after a successful conversion by `_get_package_dict`, each of
the required organizational fields (`organization_visibility`, `access`,
`workflow_status`, `personal_information`, `protective_marking`,
`update_frequency`) is populated with its valid default (`'current'`,
`'yes'`, `'draft'`, `'no'`, `'official'`, `'unknown'`) whenever the
corresponding key is absent from the extras carried over from the source
record; the target record is never left without them. -/
theorem get_package_dict_required_fields (host : Host) (o : HarvestObject)
    (pd : PackageDict) (dd : JValue)
    (hok : get_package_dict host o = .ok (pd, dd)) :
    pd.extras = (host.dcatToCkan dd).extras ∧
    (hasExtra pd "organization_visibility" = false →
      pd.organization_visibility = some (.str "current")) ∧
    (hasExtra pd "access" = false → pd.access = some (.str "yes")) ∧
    (hasExtra pd "workflow_status" = false →
      pd.workflow_status = some (.str "draft")) ∧
    (hasExtra pd "personal_information" = false →
      pd.personal_information = some (.str "no")) ∧
    (hasExtra pd "protective_marking" = false →
      pd.protective_marking = some (.str "official")) ∧
    (hasExtra pd "update_frequency" = false →
      pd.update_frequency = some (.str "unknown")) := by
  obtain ⟨-, hex, hpi, hac, hpm, huf, hov, hws⟩ := gpd_spec host o pd dd hok
  exact ⟨hex, hov, hac, hws, hpi, hpm, huf⟩

/-- A host under which a whole conversion succeeds: every string parses
to the empty JSON object, the source config resolves, and `dcat_to_ckan`
yields a minimal package dict. -/
def wHost : Host :=
  { nullHost with
    parseJson := fun _ => some (.obj [])
    getSource := fun _ => some "cfg"
    dcatToCkan := fun _ => { notes := "x", extras := [], tags := [] } }

/-- The package dict produced by `_get_package_dict` under `wHost`. -/
def pdW : PackageDict :=
  { notes := "x"
    extras := []
    tags := []
    extract := some "x"
    personal_information := some (.str "no")
    access := some (.str "yes")
    protective_marking := some (.str "official")
    update_frequency := some (.str "unknown")
    organization_visibility := some (.str "current")
    workflow_status := some (.str "draft")
    tag_string := some (.arr []) }

/-- Witness for C1 at the concrete harvest object `harvestObjA` under
`wHost`. -/
theorem get_package_dict_required_fields_witness :
    pdW.extras = (wHost.dcatToCkan (.obj [])).extras ∧
    (hasExtra pdW "organization_visibility" = false →
      pdW.organization_visibility = some (.str "current")) ∧
    (hasExtra pdW "access" = false → pdW.access = some (.str "yes")) ∧
    (hasExtra pdW "workflow_status" = false →
      pdW.workflow_status = some (.str "draft")) ∧
    (hasExtra pdW "personal_information" = false →
      pdW.personal_information = some (.str "no")) ∧
    (hasExtra pdW "protective_marking" = false →
      pdW.protective_marking = some (.str "official")) ∧
    (hasExtra pdW "update_frequency" = false →
      pdW.update_frequency = some (.str "unknown")) :=
  get_package_dict_required_fields wHost harvestObjA pdW (.obj []) rfl

/-- Concrete inputs for the C5/C6 witnesses. -/
def cfgE : Option JValue := some (.obj [])

/-- A minimal package dict. -/
def pdE : PackageDict := { notes := "", extras := [], tags := [] }

/-- `set_required_fields_defaults` applied to `pdE` under the empty
config and empty dcat dict. -/
def pdSix : PackageDict :=
  { notes := ""
    extras := []
    tags := []
    personal_information := some (.str "no")
    access := some (.str "yes")
    protective_marking := some (.str "official")
    update_frequency := some (.str "unknown")
    organization_visibility := some (.str "current")
    workflow_status := some (.str "draft")
    tag_string := some (.arr []) }

/-- C5: the harvest source configuration is read-only during conversion:
whenever the helper steps `set_full_metadata_url_and_update_frequency`,
`set_default_group` and `set_required_fields_defaults` complete, the
`harvest_config` mapping they return is identical to the one passed
in. -/
theorem helpers_preserve_harvest_config (host : Host) (cfg : Option JValue)
    (dcat : JValue) (pd1 pd2 pd3 : PackageDict) (soup : Soup)
    (r1 r2 : PackageDict × Option JValue)
    (r3 : PackageDict × Option JValue × JValue)
    (h1 : set_full_metadata_url_and_update_frequency host cfg pd1 soup = .ok r1)
    (h2 : set_default_group cfg pd2 = .ok r2)
    (h3 : set_required_fields_defaults host cfg dcat pd3 = .ok r3) :
    r1.2 = cfg ∧ r2.2 = cfg ∧ r3.2.1 = cfg :=
  ⟨(sfmu_preserves host cfg pd1 soup r1 h1).1,
   (sdg_preserves cfg pd2 r2 h2).1,
   (srfd_spec host cfg dcat pd3 r3 h3).1⟩

/-- Witness for C5 at concrete inputs on which all three helpers
succeed. -/
theorem helpers_preserve_harvest_config_witness :
    ((pdE, cfgE) : PackageDict × Option JValue).2 = cfgE ∧
    ((pdE, cfgE) : PackageDict × Option JValue).2 = cfgE ∧
    ((pdSix, cfgE, JValue.obj []) :
      PackageDict × Option JValue × JValue).2.1 = cfgE :=
  helpers_preserve_harvest_config nullHost cfgE (.obj []) pdE pdE pdE ⟨""⟩
    (pdE, cfgE) (pdE, cfgE) (pdSix, cfgE, .obj []) rfl rfl rfl

/-- C6: the parsed dcat dict is read-only input: a successful
`_get_package_dict` hands back exactly the value parsed from the harvest
object's content, and `set_required_fields_defaults` (the only helper
that receives the dcat dict) returns it unchanged. -/
theorem dcat_dict_read_only (host : Host) (o : HarvestObject)
    (pd : PackageDict) (dd : JValue) (cfg : Option JValue) (dcat : JValue)
    (pdc : PackageDict) (r : PackageDict × Option JValue × JValue)
    (hok : get_package_dict host o = .ok (pd, dd))
    (hr : set_required_fields_defaults host cfg dcat pdc = .ok r) :
    host.parseJson o.content = some dd ∧ r.2.2 = dcat :=
  ⟨(gpd_spec host o pd dd hok).1, (srfd_spec host cfg dcat pdc r hr).2.1⟩

/-- Witness for C6 at the concrete conversion under `wHost` and the
concrete helper run of the C5 witness. -/
theorem dcat_dict_read_only_witness :
    wHost.parseJson harvestObjA.content = some (.obj []) ∧
    ((pdSix, cfgE, JValue.obj []) :
      PackageDict × Option JValue × JValue).2.2 = JValue.obj [] :=
  dcat_dict_read_only wHost harvestObjA pdW (.obj []) cfgE (.obj []) pdE
    (pdSix, cfgE, .obj []) rfl rfl

/-!  ### C9: `set_default_group` -/

/-- A group dict carries an `'id'` key. -/
def hasIdKey (g : JValue) : Bool :=
  match g with
  | .obj kvs => (kvs.lookup "id").isSome
  | _ => false

/-- The `'id'` value of a group dict (total version, for stating what
`g['id']` yields on dicts that have the key). -/
def getIdD (g : JValue) : JValue :=
  match g with
  | .obj kvs => (kvs.lookup "id").getD .null
  | _ => .null

theorem pyGetItem_id (g : JValue) (h : hasIdKey g = true) :
    pyGetItem g "id" = .ok (getIdD g) := by
  cases g with
  | obj kvs =>
      simp only [hasIdKey] at h
      cases hkv : kvs.lookup "id" with
      | none => rw [hkv] at h; cases h
      | some v => simp [pyGetItem, getIdD, hkv]
  | null => cases h
  | bool b => cases h
  | num n => cases h
  | str s => cases h
  | arr xs => cases h

theorem truthy_of_hasIdKey (g : JValue) (h : hasIdKey g = true) :
    g.truthy = true := by
  cases g with
  | obj kvs =>
      cases kvs with
      | nil => cases h
      | cons kv rest => rfl
  | null => cases h
  | bool b => cases h
  | num n => cases h
  | str s => cases h
  | arr xs => cases h

theorem existingGroupIds_ok (gs : List JValue)
    (h : ∀ g ∈ gs, hasIdKey g = true) :
    existingGroupIds gs = .ok (gs.map getIdD) := by
  induction gs with
  | nil => rfl
  | cons g rest ih =>
      unfold existingGroupIds
      simp only [Bind.bind]
      rw [pyGetItem_id g (h g (List.mem_cons_self g rest)), exbind_ok,
        ih fun g' hg' => h g' (List.mem_cons.mpr (Or.inr hg')), exbind_ok]
      rfl

theorem filterNewGroups_ok (existing : List JValue) (gs : List JValue)
    (h : ∀ g ∈ gs, hasIdKey g = true) :
    filterNewGroups existing gs =
      .ok (gs.filter (fun g => !existing.contains (getIdD g))) := by
  induction gs with
  | nil => rfl
  | cons g rest ih =>
      unfold filterNewGroups
      simp only [Bind.bind]
      rw [pyGetItem_id g (h g (List.mem_cons_self g rest)), exbind_ok,
        ih fun g' hg' => h g' (List.mem_cons.mpr (Or.inr hg')), exbind_ok]
      rw [List.filter_cons]
      by_cases hc : existing.contains (getIdD g)
      · simp [hc]
      · simp [hc]

/-- C9: `set_default_group` never introduces duplicate groups: for
every package dict — whether or not it carries a `'groups'` key, since
the code initializes a missing one to `[]` — and every non-empty
`default_group_dicts` list in the config, only those default groups
whose `'id'` does not already occur among the ids of
`package_dict['groups']` are appended, the existing group entries are
preserved in order (they stay a prefix), and `category` is set to the id
of the first default group. -/
theorem set_default_group_spec (cfg : Option JValue)
    (ckvs : List (String × JValue)) (g0 : JValue) (rest : List JValue)
    (pd : PackageDict)
    (hcfg : cfg = some (.obj ckvs))
    (hdgd : ckvs.lookup "default_group_dicts" = some (.arr (g0 :: rest)))
    (hids : ∀ g ∈ g0 :: rest, hasIdKey g = true)
    (hgids : ∀ g ∈ pd.groups.getD [], hasIdKey g = true) :
    set_default_group cfg pd = .ok
      ({ pd with
          category := some (getIdD g0)
          groups := some (pd.groups.getD [] ++ (g0 :: rest).filter
            (fun g => !((pd.groups.getD []).map getIdD).contains (getIdD g))) },
        cfg) := by
  subst hcfg
  have h1 : pyGetOpt (some (.obj ckvs)) "default_group_dicts" (.arr []) =
      .ok (.arr (g0 :: rest)) := by
    simp [pyGetOpt, pyGet, hdgd]
  have hg0 : hasIdKey g0 = true := hids g0 (List.mem_cons_self g0 rest)
  have htr : g0.truthy = true := truthy_of_hasIdKey g0 hg0
  have hpg : pyGet g0 "id" JValue.null = .ok (getIdD g0) := by
    cases g0 with
    | obj kvs0 => simp [pyGet, getIdD]
    | null => cases hg0
    | bool b => cases hg0
    | num n => cases hg0
    | str s => cases hg0
    | arr xs => cases hg0
  unfold set_default_group
  simp only [Bind.bind]
  rw [h1, exbind_ok]
  try dsimp only
  rw [if_pos htr]
  rw [hpg, exbind_ok]
  try dsimp only
  rw [exbind_pure]
  try dsimp only
  rw [existingGroupIds_ok (pd.groups.getD []) hgids, exbind_ok,
    filterNewGroups_ok ((pd.groups.getD []).map getIdD) (g0 :: rest) hids,
    exbind_ok]

/-- A first default group for the C9 witness. -/
def gOne : JValue := .obj [("id", .str "g-1"), ("name", .str "One")]

/-- A second default group whose id already occurs in the package. -/
def gTwo : JValue := .obj [("id", .str "g-2"), ("name", .str "Two")]

/-- The group entry already on the package dict. -/
def gExisting : JValue := .obj [("id", .str "g-2")]

/-- A package dict already carrying the group with id `g-2`. -/
def pdGroups : PackageDict :=
  { notes := "", extras := [], tags := [], groups := some [gExisting] }

/-- The harvest config for the C9 witness. -/
def ckvsW : List (String × JValue) :=
  [("default_group_dicts", .arr [gOne, gTwo])]

/-- Witness for C9: the group with duplicate id `g-2` is not appended,
the existing entry is preserved, and `category` becomes `g-1`. -/
theorem set_default_group_spec_witness :
    set_default_group (some (.obj ckvsW)) pdGroups = .ok
      ({ pdGroups with
          category := some (getIdD gOne)
          groups := some ([gExisting] ++ ([gOne, gTwo]).filter
            (fun g => !(([gExisting]).map getIdD).contains (getIdD g))) },
        some (.obj ckvsW)) :=
  set_default_group_spec (some (.obj ckvsW)) ckvsW gOne [gTwo] pdGroups rfl rfl
    (by intro g hg; simp [gOne, gTwo] at hg; rcases hg with rfl | rfl <;> rfl)
    (by intro g hg; simp [pdGroups, gExisting] at hg; subst hg; rfl)

end DataVic
